import Mathlib

/-!
Verification development for the langextract financial-extraction example
repository.  The Python sources `end_to_end_example.py` and
`sec_filing_fetcher.py` are shallowly embedded below: the pure reshaping
code becomes Lean functions over lists, the network and the HTML parser
are modelled by an oracle, and the filesystem cache directory is explicit
state (an association list from file name to content).  Python strings
are modelled by Lean `String`, with slicing, splitting and upper-casing
implemented over the character list so that they compute by `rfl` and
`decide`.
-/

/-- A character interval of an extraction (`char_interval` on the
langextract `Extraction` dataclass). -/
structure CharInterval where
  start_pos : Nat
  end_pos : Nat
deriving DecidableEq

/-- An extraction: class label, the exact source substring, an optional
character interval and a string-to-string attribute mapping (modelled as
an association list whose first binding of a key is authoritative). -/
structure Extraction where
  extraction_class : String
  extraction_text : String
  char_interval : Option CharInterval
  attributes : List (String × String)
deriving DecidableEq

/-- Python `dict.get(k)`: the value bound to `k`, if any. -/
def attrsFind (a : List (String × String)) (k : String) : Option String :=
  (a.find? (fun p => p.1 == k)).map (fun p => p.2)

/-- Python `dict.get(k, d)`: the value bound to `k`, or the default `d`. -/
def attrsGetD (a : List (String × String)) (k d : String) : String :=
  match attrsFind a k with
  | some v => v
  | none => d

/-- One row of the metrics CSV written by `export_financial_metrics`
(`end_to_end_example.py`, lines 78-87): six columns. -/
structure MetricRow where
  metric_name : String
  value : String
  unit : String
  time_period : String
  segment : String
  text : String
deriving DecidableEq

/-- The row built for one `financial_metric` extraction
(`end_to_end_example.py`, lines 80-87). -/
def metricRowOf (e : Extraction) : MetricRow :=
  { metric_name := attrsGetD e.attributes "metric_name" "unknown"
    value := attrsGetD e.attributes "value" ""
    unit := attrsGetD e.attributes "unit" ""
    time_period := attrsGetD e.attributes "time_period" ""
    segment := attrsGetD e.attributes "segment" ""
    text := e.extraction_text }

/-- `export_financial_metrics` (`end_to_end_example.py`, lines 62-91):
filter the extraction list for class `financial_metric` and emit one
`MetricRow` per match, in order. -/
def export_financial_metrics (es : List Extraction) : List MetricRow :=
  (es.filter (fun e => e.extraction_class == "financial_metric")).map metricRowOf

/-- One row of the segments CSV written by `export_business_segments`.
Rows coming from `business_segment` extractions lack the three metric
columns, so those are `Option`s. -/
structure SegmentRow where
  segment_name : String
  segment_type : String
  metric_name : Option String
  value : Option String
  unit : Option String
deriving DecidableEq

/-- Python truthiness of `dict.get(k)`: `None` and the empty string are
falsy, any other string is truthy. -/
def pyTruthy : Option String → Bool
  | none => false
  | some s => !(s == "")

/-- `export_business_segments` (`end_to_end_example.py`, lines 125-162):
one row per `business_segment` extraction, followed by one row per
`financial_metric` extraction whose `segment` attribute is truthy. -/
def export_business_segments (es : List Extraction) : List SegmentRow :=
  (es.filter (fun e => e.extraction_class == "business_segment")).map
    (fun e =>
      { segment_name := e.extraction_text
        segment_type := attrsGetD e.attributes "segment_type" ""
        metric_name := none
        value := none
        unit := none })
  ++ (es.filter (fun e =>
        e.extraction_class == "financial_metric"
          && pyTruthy (attrsFind e.attributes "segment"))).map
    (fun e =>
      { segment_name := attrsGetD e.attributes "segment" ""
        segment_type := "metric"
        metric_name := some (attrsGetD e.attributes "metric_name" "")
        value := some (attrsGetD e.attributes "value" "")
        unit := some (attrsGetD e.attributes "unit" "") })

/-- Modelled from the spec claim for the segment export: one row per
`business_segment` extraction (name = extraction text, type = its
`segment_type` attribute) plus one row per `financial_metric` extraction
whose `segment` attribute is present and non-empty (name = that segment
value, type = the constant string `metric`, with metric_name, value and
unit columns), and no other rows. -/
def segment_export_spec (es : List Extraction) : List SegmentRow :=
  (es.filter (fun e => e.extraction_class == "business_segment")).map
    (fun e =>
      { segment_name := e.extraction_text
        segment_type := attrsGetD e.attributes "segment_type" ""
        metric_name := none
        value := none
        unit := none })
  ++ (es.filter (fun e =>
        e.extraction_class == "financial_metric"
          && (match attrsFind e.attributes "segment" with
              | some s => decide (¬ s = "")
              | none => false))).map
    (fun e =>
      { segment_name := attrsGetD e.attributes "segment" ""
        segment_type := "metric"
        metric_name := some (attrsGetD e.attributes "metric_name" "")
        value := some (attrsGetD e.attributes "value" "")
        unit := some (attrsGetD e.attributes "unit" "") })

/-- The list of risk-category strings fed to the `Counter` in
`generate_summary_report` (`end_to_end_example.py`, lines 241-243):
one entry per `risk_factor` extraction, defaulting to `unknown`. -/
def risk_categories_input (es : List Extraction) : List String :=
  (es.filter (fun e => e.extraction_class == "risk_factor")).map
    (fun r => attrsGetD r.attributes "risk_category" "unknown")

/-- The distinct elements of a list, keeping first occurrences in order:
the key order of a Python `Counter` built from the list. -/
def dedupFirst : List String → List String
  | [] => []
  | c :: cs => c :: dedupFirst (cs.filter (fun x => !(x == c)))
termination_by l => l.length
decreasing_by
  simp only [List.length_cons]
  exact Nat.lt_succ_of_le (List.length_filter_le _ _)

/-- Insert a (category, count) pair into a list sorted by descending
count, before the first strictly smaller count (a stable descending
insertion, matching Python's stable `sorted`). -/
def insertDesc (p : String × Nat) : List (String × Nat) → List (String × Nat)
  | [] => [p]
  | q :: qs => if q.2 ≤ p.2 then p :: q :: qs else q :: insertDesc p qs

/-- Stable insertion sort by descending count. -/
def sortCountDesc : List (String × Nat) → List (String × Nat)
  | [] => []
  | p :: ps => insertDesc p (sortCountDesc ps)

/-- The (element, multiplicity) pairs of a Python `Counter` over `l`, in
insertion order. -/
def counterPairs (l : List String) : List (String × Nat) :=
  (dedupFirst l).map (fun c => (c, l.count c))

/-- Python `Counter(l).most_common()`: the counter's pairs sorted stably
by descending count. -/
def most_common (l : List String) : List (String × Nat) :=
  sortCountDesc (counterPairs l)

/-- The risk-category breakdown of the summary report
(`end_to_end_example.py`, lines 241-245): `most_common` of the
per-risk-factor category strings. -/
def risk_category_listing (es : List Extraction) : List (String × Nat) :=
  most_common (risk_categories_input es)

/-- Python string slicing `s[:n]`: the first `n` characters. -/
def strTake (s : String) (n : Nat) : String := ⟨s.data.take n⟩

/-- Python `str.split(sep)` for a one-character separator, on character
lists.  Always returns a non-empty list; empty parts are kept. -/
def pySplit (sep : Char) : List Char → List (List Char)
  | [] => [[]]
  | c :: cs =>
    let r := pySplit sep cs
    if c == sep then [] :: r
    else
      match r with
      | [] => [[c]]
      | h :: t => (c :: h) :: t

/-- `filing_url.split("/")[-1]` (`sec_filing_fetcher.py`, line 161): the
final path segment of a URL. -/
def lastSegment (url : String) : String := ⟨(pySplit '/' url.data).getLastD []⟩

/-- Python `str.upper()` for ASCII strings. -/
def pyUpper (s : String) : String := ⟨s.data.map Char.toUpper⟩

/-- Python `str.lstrip("0")`. -/
def lstripZeros (s : String) : String := ⟨s.data.dropWhile (fun c => c == '0')⟩

/-- Whether `pat` is an initial run of `l` (helper for Python `in`). -/
def listStartsWith : List Char → List Char → Bool
  | _, [] => true
  | [], _ :: _ => false
  | c :: cs, p :: ps => c == p && listStartsWith cs ps

/-- Whether `pat` occurs contiguously inside the list (helper for Python
`in`). -/
def listContainsSub (pat : List Char) : List Char → Bool
  | [] => pat.isEmpty
  | c :: cs => listStartsWith (c :: cs) pat || listContainsSub pat cs

/-- Python substring test `sub in s`. -/
def strContains (s sub : String) : Bool := listContainsSub sub.data s.data

/-- The contents of the fetcher's cache directory: file name to content. -/
abbrev Cache := List (String × String)

/-- Whether a file of the given name exists in the cache directory, and
its content if so (`cache_file.exists()` / `cache_file.read_text()`). -/
def cacheLookup (c : Cache) (name : String) : Option String := attrsFind c name

/-- One row of the filings table parsed by `search_filings`
(`sec_filing_fetcher.py`, lines 132-136). -/
structure Filing where
  filing_type : String
  filing_date : String
  filing_url : String
deriving DecidableEq

/-- The outcome of the filing-index request and parse in `search_filings`:
a network exception, a page without the expected table, or parsed rows. -/
inductive SearchOutcome where
  | netError
  | noTable
  | rows (filings : List Filing)
deriving DecidableEq

/-- The outcome of fetching a filing's detail page and main document in
`get_filing_text`: a network exception at either request, a page without
the document table, no main-document link in it, or the full cleaned text
of the main document (the result of `_extract_full_text`). -/
inductive DocFetchOutcome where
  | netError
  | noTable
  | noDocLink
  | ok (fullText : String)
deriving DecidableEq

/-- The external world: what EDGAR returns for a search request (keyed by
the zero-stripped CIK and the filing type) and for a filing URL. -/
structure Oracle where
  search : String → String → SearchOutcome
  doc : String → DocFetchOutcome

/-- A network request issued by the fetcher. -/
inductive NetReq where
  | searchReq (cik filing_type : String)
  | fetchReq (filing_url : String)
deriving DecidableEq

/-- The static ticker-to-CIK table of `get_company_cik`
(`sec_filing_fetcher.py`, lines 58-66). -/
def ticker_to_cik : List (String × String) :=
  [("NVDA", "0001045810"), ("MSFT", "0000789019"), ("AAPL", "0000320193"),
   ("GOOGL", "0001652044"), ("AMZN", "0001018724"), ("TSLA", "0001318605"),
   ("META", "0001326801")]

/-- `get_company_cik` (`sec_filing_fetcher.py`, lines 47-67): look the
upper-cased ticker up in the static table. -/
def get_company_cik (ticker : String) : Option String :=
  attrsFind ticker_to_cik (pyUpper ticker)

/-- `search_filings` (`sec_filing_fetcher.py`, lines 69-143): issue one
search request; on any exception or a missing results table return the
empty list, otherwise the first `count` parsed rows. -/
def search_filings (o : Oracle) (cik : String) (filing_type : String)
    (count : Nat) : List Filing × List NetReq :=
  let req := [NetReq.searchReq (lstripZeros cik) filing_type]
  match o.search (lstripZeros cik) filing_type with
  | SearchOutcome.netError => ([], req)
  | SearchOutcome.noTable => ([], req)
  | SearchOutcome.rows fs => (fs.take count, req)

/-- `_extract_sections` (`sec_filing_fetcher.py`, lines 240-251): section
extraction is not implemented; the function ignores its `sections`
argument and returns the first 50000 characters of the full text. -/
def extract_sections (full_text : String) (sections : List String) : String :=
  strTake full_text 50000

/-- `get_filing_text` (`sec_filing_fetcher.py`, lines 145-223): consult
the cache under the final URL segment plus `.txt`; on a miss fetch the
detail page and main document (one oracle step), apply the section branch,
write the cache file and return the text; any failure returns the empty
string.  Result: text, updated cache directory, network requests made. -/
def get_filing_text (o : Oracle) (cache : Cache) (filing_url : String)
    (sections : Option (List String)) : String × Cache × List NetReq :=
  let cache_name := lastSegment filing_url ++ ".txt"
  match cacheLookup cache cache_name with
  | some t => (t, cache, [])
  | none =>
    match o.doc filing_url with
    | DocFetchOutcome.netError => ("", cache, [NetReq.fetchReq filing_url])
    | DocFetchOutcome.noTable => ("", cache, [NetReq.fetchReq filing_url])
    | DocFetchOutcome.noDocLink => ("", cache, [NetReq.fetchReq filing_url])
    | DocFetchOutcome.ok fullText =>
      let text :=
        match sections with
        | some secs =>
          if secs.isEmpty then fullText else extract_sections fullText secs
        | none => fullText
      (text, (cache_name, text) :: cache, [NetReq.fetchReq filing_url])

/-- The year filter of `get_filing` (`sec_filing_fetcher.py`, lines
286-287): when a year is given, keep filings whose date contains it. -/
def yearFiltered (filings : List Filing) (year : Option String) : List Filing :=
  match year with
  | none => filings
  | some y => filings.filter (fun f => strContains f.filing_date y)

/-- The filing candidates `get_filing` selects from: the year-filtered
search results, empty when the ticker is unknown. -/
def filingsOf (o : Oracle) (ticker filing_type : String)
    (year : Option String) : List Filing :=
  match get_company_cik ticker with
  | none => []
  | some cik => yearFiltered (search_filings o cik filing_type 10).1 year

/-- `get_filing` (`sec_filing_fetcher.py`, lines 253-297): resolve the
CIK, search, filter by year, and fetch the text of the most recent
remaining filing; every failure returns the empty string.  Result: text,
updated cache directory, network requests made. -/
def get_filing (o : Oracle) (cache : Cache) (ticker : String)
    (filing_type : String) (year : Option String)
    (sections : Option (List String)) : String × Cache × List NetReq :=
  match get_company_cik ticker with
  | none => ("", cache, [])
  | some cik =>
    let sr := search_filings o cik filing_type 10
    match sr.1 with
    | [] => ("", cache, sr.2)
    | _ :: _ =>
      match yearFiltered sr.1 year with
      | [] => ("", cache, sr.2)
      | f :: _ =>
        let r := get_filing_text o cache f.filing_url sections
        (r.1, r.2.1, sr.2 ++ r.2.2)

/-- An observable side effect of `main` in `end_to_end_example.py` (prints
other than the missing-credential report are not modelled). -/
inductive MainEff where
  | mkdirOutput
  | reportMissingKey
  | netReq (r : NetReq)
  | readCacheFile (name : String)
  | runExtraction
deriving DecidableEq

/-- The observable result of the modelled part of `main`: the exit code
(`some c` for `sys.exit(c)`, `none` when step 1 completed and the run
proceeded to extraction), the side effects in order, and the final state
of the `sec_cache` directory. -/
structure MainResult where
  exitCode : Option Nat
  effects : List MainEff
  cache : Cache
deriving DecidableEq

/-- The command-line arguments of `main` relevant to its control flow. -/
structure Args where
  ticker : String
  filing_type : String
  year : Option String
  skip_fetch : Bool
deriving DecidableEq

/-- The cache file name consulted by the skip-fetch branch of `main`
(`end_to_end_example.py`, line 355). -/
def skipCacheName (args : Args) : String :=
  args.ticker ++ "_" ++ args.filing_type ++ ".txt"

/-- `main` (`end_to_end_example.py`, lines 273-378, modelled through step
1): parse arguments, create the output directory (line 321), check
`LANGEXTRACT_API_KEY` (lines 324-328, Python falsiness: unset or empty
exits 1), then either fetch via `get_filing` (exiting 1 on empty text) or,
with `--skip-fetch`, read `<ticker>_<filing-type>.txt` from `sec_cache`
(exiting 1 when absent); on success the run proceeds to extraction. -/
def main_run (o : Oracle) (env_api_key : Option String) (args : Args)
    (cache : Cache) : MainResult :=
  if env_api_key.getD "" == "" then
    { exitCode := some 1
      effects := [MainEff.mkdirOutput, MainEff.reportMissingKey]
      cache := cache }
  else
    if args.skip_fetch then
      match cacheLookup cache (skipCacheName args) with
      | some _ =>
        { exitCode := none
          effects := [MainEff.mkdirOutput,
                      MainEff.readCacheFile (skipCacheName args),
                      MainEff.runExtraction]
          cache := cache }
      | none =>
        { exitCode := some 1, effects := [MainEff.mkdirOutput], cache := cache }
    else
      let r := get_filing o cache args.ticker args.filing_type args.year none
      if r.1 == "" then
        { exitCode := some 1
          effects := MainEff.mkdirOutput :: r.2.2.map MainEff.netReq
          cache := r.2.1 }
      else
        { exitCode := none
          effects := (MainEff.mkdirOutput :: r.2.2.map MainEff.netReq)
                        ++ [MainEff.runExtraction]
          cache := r.2.1 }

/-- A `financial_metric` extraction whose attributes lack `metric_name`. -/
def exMetricNoName : Extraction :=
  { extraction_class := "financial_metric"
    extraction_text := "revenue grew to 60.9 billion"
    char_interval := none
    attributes := [("value", "60.9"), ("unit", "USD_billions")] }

/-- An oracle on which every search succeeds with no rows and every
document fetch raises. -/
def oracle0 : Oracle :=
  { search := fun _ _ => SearchOutcome.rows []
    doc := fun _ => DocFetchOutcome.netError }

/-- An oracle serving one document, for the cache-collision scenarios. -/
def oracleTwo : Oracle :=
  { search := fun _ _ => SearchOutcome.rows []
    doc := fun u =>
      if u == "https://a/x" then DocFetchOutcome.ok "T"
      else DocFetchOutcome.netError }

/-- An oracle whose NVDA 10-K search returns a filing whose URL's final
path segment is exactly `NVDA_10-K`. -/
def oracleClash : Oracle :=
  { search := fun cik ft =>
      if cik == "1045810" && ft == "10-K" then
        SearchOutcome.rows
          [{ filing_type := "10-K", filing_date := "2024-02-21",
             filing_url := "https://www.sec.gov/cgi-bin/NVDA_10-K" }]
      else SearchOutcome.rows []
    doc := fun u =>
      if u == "https://www.sec.gov/cgi-bin/NVDA_10-K" then
        DocFetchOutcome.ok "FILING TEXT"
      else DocFetchOutcome.netError }

/-- An oracle whose NVDA 10-K search returns one filing with a realistic
EDGAR index URL. -/
def oracleEdgar : Oracle :=
  { search := fun cik ft =>
      if cik == "1045810" && ft == "10-K" then
        SearchOutcome.rows
          [{ filing_type := "10-K", filing_date := "2024-02-21",
             filing_url := "https://www.sec.gov/Archives/edgar/data/1045810/000104581024000029-index.htm" }]
      else SearchOutcome.rows []
    doc := fun u =>
      if u == "https://www.sec.gov/Archives/edgar/data/1045810/000104581024000029-index.htm" then
        DocFetchOutcome.ok "ANNUAL REPORT"
      else DocFetchOutcome.netError }

/-- Default command-line arguments: a fetching run for NVDA 10-K. -/
def args0 : Args :=
  { ticker := "NVDA", filing_type := "10-K", year := none, skip_fetch := false }

/-- A skip-fetch run for NVDA 10-K. -/
def argsSkip : Args :=
  { ticker := "NVDA", filing_type := "10-K", year := none, skip_fetch := true }

/-- `attrsGetD` is `Option.getD` of `attrsFind`. -/
theorem attrsGetD_eq_getD (a : List (String × String)) (k d : String) :
    attrsGetD a k d = (attrsFind a k).getD d := by
  unfold attrsGetD
  cases attrsFind a k <;> rfl

/-- The metrics export has as many rows as the input has
`financial_metric` extractions. -/
theorem metrics_length_eq_countP (es : List Extraction) :
    (export_financial_metrics es).length
      = es.countP (fun e => e.extraction_class == "financial_metric") := by
  rw [export_financial_metrics, List.length_map, List.countP_eq_length_filter]

/-- C4: for every extraction list, the number of data rows in the metrics
CSV export equals the number of extractions whose class is exactly
`financial_metric`. -/
theorem metrics_export_row_count (es : List Extraction) :
    (export_financial_metrics es).length
      = es.countP (fun e => e.extraction_class == "financial_metric") :=
  metrics_length_eq_countP es

/-- C2 (amended): the metrics export has one `MetricRow` (exactly the six
columns metric_name, value, unit, time_period, segment, text) per
`financial_metric` extraction; the four attribute columns value, unit,
time_period and segment default to the empty string when the key is
absent, while metric_name defaults to the string `unknown`, and the text
column is the extraction text. -/
theorem metrics_export_row_shape (es : List Extraction) (e : Extraction)
    (h1 : e ∈ es) (h2 : e.extraction_class = "financial_metric") :
    metricRowOf e ∈ export_financial_metrics es ∧
    (export_financial_metrics es).length
      = es.countP (fun x => x.extraction_class == "financial_metric") ∧
    (metricRowOf e).metric_name = (attrsFind e.attributes "metric_name").getD "unknown" ∧
    (metricRowOf e).value = (attrsFind e.attributes "value").getD "" ∧
    (metricRowOf e).unit = (attrsFind e.attributes "unit").getD "" ∧
    (metricRowOf e).time_period = (attrsFind e.attributes "time_period").getD "" ∧
    (metricRowOf e).segment = (attrsFind e.attributes "segment").getD "" ∧
    (metricRowOf e).text = e.extraction_text := by
  refine ⟨?_, metrics_length_eq_countP es, ?_, ?_, ?_, ?_, ?_, rfl⟩
  · exact List.mem_map_of_mem metricRowOf
      (List.mem_filter.mpr ⟨h1, by simp [h2]⟩)
  all_goals
    exact attrsGetD_eq_getD _ _ _

/-- Witness for C2 (amended) at a concrete `financial_metric` extraction
with no `metric_name` attribute. -/
theorem metrics_export_row_shape_witness :
    metricRowOf exMetricNoName ∈ export_financial_metrics [exMetricNoName] ∧
    (export_financial_metrics [exMetricNoName]).length
      = [exMetricNoName].countP (fun x => x.extraction_class == "financial_metric") ∧
    (metricRowOf exMetricNoName).metric_name
      = (attrsFind exMetricNoName.attributes "metric_name").getD "unknown" ∧
    (metricRowOf exMetricNoName).value
      = (attrsFind exMetricNoName.attributes "value").getD "" ∧
    (metricRowOf exMetricNoName).unit
      = (attrsFind exMetricNoName.attributes "unit").getD "" ∧
    (metricRowOf exMetricNoName).time_period
      = (attrsFind exMetricNoName.attributes "time_period").getD "" ∧
    (metricRowOf exMetricNoName).segment
      = (attrsFind exMetricNoName.attributes "segment").getD "" ∧
    (metricRowOf exMetricNoName).text = exMetricNoName.extraction_text :=
  metrics_export_row_shape [exMetricNoName] exMetricNoName
    (List.mem_singleton.mpr rfl) rfl

/-- C2 counterexample: for an extraction whose attributes lack
`metric_name`, the metric_name cell of its metrics-CSV row is the string
`unknown`, not the empty string that the claim asserts. -/
theorem metrics_export_metric_name_default_cex :
    attrsFind exMetricNoName.attributes "metric_name" = none ∧
    (export_financial_metrics [exMetricNoName]).map
        (fun r => r.metric_name) = ["unknown"] ∧
    ¬ ("unknown" : String) = "" := by decide

/-- C5: the segment export equals the spec's description: one row per
`business_segment` extraction (name = extraction text, type = its
`segment_type` attribute) plus one row per `financial_metric` extraction
with a present, non-empty `segment` attribute (name = that value, type =
the constant `metric`, with metric_name/value/unit), and no other rows. -/
theorem segments_export_eq_spec (es : List Extraction) :
    export_business_segments es = segment_export_spec es := by
  unfold export_business_segments segment_export_spec
  congr 1
  apply congrArg
  apply List.filter_congr
  intro e _
  cases h : attrsFind e.attributes "segment" with
  | none => simp [pyTruthy, h]
  | some s =>
    by_cases hs : s = ""
    · subst hs
      simp [pyTruthy, h]
    · simp [pyTruthy, h, hs]

/-- Membership is preserved by first-occurrence deduplication. -/
theorem mem_dedupFirst {a : String} :
    ∀ {l : List String}, a ∈ dedupFirst l ↔ a ∈ l := by
  intro l
  induction l using dedupFirst.induct with
  | case1 => simp [dedupFirst]
  | case2 c cs ih =>
    rw [dedupFirst]
    simp only [List.mem_cons, ih, List.mem_filter]
    by_cases h : a = c <;> simp [h]

/-- First-occurrence deduplication yields a duplicate-free list. -/
theorem nodup_dedupFirst : ∀ (l : List String), (dedupFirst l).Nodup := by
  intro l
  induction l using dedupFirst.induct with
  | case1 => simp [dedupFirst]
  | case2 c cs ih =>
    rw [dedupFirst]
    refine List.nodup_cons.mpr ⟨?_, ih⟩
    intro hc
    have := mem_dedupFirst.mp hc
    simp [List.mem_filter] at this

/-- Descending insertion produces a permutation of consing. -/
theorem insertDesc_perm (p : String × Nat) (l : List (String × Nat)) :
    (insertDesc p l).Perm (p :: l) := by
  induction l with
  | nil => exact List.Perm.refl _
  | cons q qs ih =>
    rw [insertDesc]
    by_cases h : q.2 ≤ p.2
    · simp [h]
    · simp only [if_neg h]
      exact (ih.cons q).trans (List.Perm.swap p q qs)

/-- The descending sort permutes its input. -/
theorem sortCountDesc_perm (l : List (String × Nat)) :
    (sortCountDesc l).Perm l := by
  induction l with
  | nil => exact List.Perm.refl _
  | cons p ps ih =>
    rw [sortCountDesc]
    exact (insertDesc_perm p (sortCountDesc ps)).trans (ih.cons p)

/-- Descending insertion preserves the descending-count invariant. -/
theorem insertDesc_pairwise (p : String × Nat) (l : List (String × Nat))
    (h : List.Pairwise (fun a b => b.2 ≤ a.2) l) :
    List.Pairwise (fun a b => b.2 ≤ a.2) (insertDesc p l) := by
  induction l with
  | nil => simp [insertDesc]
  | cons q qs ih =>
    rw [insertDesc]
    rcases List.pairwise_cons.mp h with ⟨hq, hqs⟩
    by_cases hle : q.2 ≤ p.2
    · rw [if_pos hle]
      refine List.pairwise_cons.mpr ⟨?_, h⟩
      intro b hb
      rcases List.mem_cons.mp hb with rfl | hb
      · exact hle
      · exact Nat.le_trans (hq b hb) hle
    · rw [if_neg hle]
      refine List.pairwise_cons.mpr ⟨?_, ih hqs⟩
      intro b hb
      have hb' := (insertDesc_perm p qs).mem_iff.mp hb
      rcases List.mem_cons.mp hb' with rfl | hb'
      · exact Nat.le_of_lt (Nat.lt_of_not_le hle)
      · exact hq b hb'

/-- The descending sort is sorted by weakly decreasing count. -/
theorem sortCountDesc_pairwise (l : List (String × Nat)) :
    List.Pairwise (fun a b => b.2 ≤ a.2) (sortCountDesc l) := by
  induction l with
  | nil => simp [sortCountDesc]
  | cons p ps ih =>
    rw [sortCountDesc]
    exact insertDesc_pairwise p _ ih

/-- The first components of the counter pairs are the deduplicated
input. -/
theorem counterPairs_map_fst (l : List String) :
    (counterPairs l).map Prod.fst = dedupFirst l := by
  simp only [counterPairs, List.map_map]
  apply List.map_id''
  intro x
  rfl

/-- C6: in the summary report's risk-category breakdown, categories are
listed in weakly descending order of occurrence count among the input
`risk_factor` extractions, every category occurring in the input appears
exactly once, no category absent from the input appears, and each listed
count is that category's occurrence count. -/
theorem risk_breakdown_descending (es : List Extraction) :
    List.Pairwise (fun a b => b.2 ≤ a.2) (risk_category_listing es) ∧
    ((risk_category_listing es).map Prod.fst).Nodup ∧
    (∀ c, c ∈ (risk_category_listing es).map Prod.fst
        ↔ c ∈ risk_categories_input es) ∧
    (∀ p ∈ risk_category_listing es,
        p.2 = (risk_categories_input es).count p.1) := by
  have hperm : (risk_category_listing es).Perm
      (counterPairs (risk_categories_input es)) := sortCountDesc_perm _
  have hfst : ((risk_category_listing es).map Prod.fst).Perm
      (dedupFirst (risk_categories_input es)) := by
    have := hperm.map Prod.fst
    rwa [counterPairs_map_fst] at this
  refine ⟨sortCountDesc_pairwise _, ?_, ?_, ?_⟩
  · exact hfst.nodup_iff.mpr (nodup_dedupFirst _)
  · intro c
    rw [hfst.mem_iff, mem_dedupFirst]
  · intro p hp
    have hp' := hperm.mem_iff.mp hp
    rcases List.mem_map.mp hp' with ⟨c, _, rfl⟩
    rfl

/-- Year-filtering an empty list yields the empty list. -/
theorem yearFiltered_nil (year : Option String) : yearFiltered [] year = [] := by
  cases year <;> rfl

/-- `get_filing` with an unknown ticker: empty text, untouched cache, no
network request. -/
theorem get_filing_cik_none (o : Oracle) (cache : Cache)
    (ticker filing_type : String) (year : Option String)
    (sections : Option (List String))
    (h : get_company_cik ticker = none) :
    get_filing o cache ticker filing_type year sections = ("", cache, []) := by
  simp [get_filing, h]

/-- `get_filing` with an empty search result returns the empty string. -/
theorem get_filing_search_nil (o : Oracle) (cache : Cache)
    (ticker filing_type : String) (year : Option String)
    (sections : Option (List String)) (cik : String)
    (hc : get_company_cik ticker = some cik)
    (hs : (search_filings o cik filing_type 10).1 = []) :
    (get_filing o cache ticker filing_type year sections).1 = "" := by
  simp [get_filing, hc, hs]

/-- `get_filing` with no filing candidates returns the empty string. -/
theorem get_filing_filtered_nil (o : Oracle) (cache : Cache)
    (ticker filing_type : String) (year : Option String)
    (sections : Option (List String))
    (h : filingsOf o ticker filing_type year = []) :
    (get_filing o cache ticker filing_type year sections).1 = "" := by
  cases hc : get_company_cik ticker with
  | none => simp [get_filing, hc]
  | some cik =>
    have h' : yearFiltered (search_filings o cik filing_type 10).1 year = [] := by
      simpa [filingsOf, hc] using h
    cases hs : (search_filings o cik filing_type 10).1 with
    | nil => simp [get_filing, hc, hs]
    | cons a as =>
      rw [hs] at h'
      simp [get_filing, hc, hs, h']

/-- On the success path, `get_filing` fetches the head of the filing
candidates and returns its `get_filing_text` result, together with the
search request. -/
theorem get_filing_head (o : Oracle) (cache : Cache)
    (ticker filing_type : String) (year : Option String)
    (sections : Option (List String)) (f : Filing) (fs : List Filing)
    (h : filingsOf o ticker filing_type year = f :: fs) :
    ∃ cik, get_company_cik ticker = some cik ∧
      get_filing o cache ticker filing_type year sections
        = ((get_filing_text o cache f.filing_url sections).1,
           (get_filing_text o cache f.filing_url sections).2.1,
           (search_filings o cik filing_type 10).2
             ++ (get_filing_text o cache f.filing_url sections).2.2) := by
  cases hc : get_company_cik ticker with
  | none => simp [filingsOf, hc] at h
  | some cik =>
    refine ⟨cik, rfl, ?_⟩
    have h' : yearFiltered (search_filings o cik filing_type 10).1 year
        = f :: fs := by
      simpa [filingsOf, hc] using h
    cases hs : (search_filings o cik filing_type 10).1 with
    | nil =>
      rw [hs, yearFiltered_nil] at h'
      exact absurd h' (by simp)
    | cons a as =>
      rw [hs] at h'
      simp [get_filing, hc, hs, h']

/-- `get_filing_text` on a cache miss whose document fetch fails (network
error, missing document table or missing main-document link) returns the
empty string and writes nothing. -/
theorem get_filing_text_fail (o : Oracle) (cache : Cache) (url : String)
    (sections : Option (List String))
    (hmiss : cacheLookup cache (lastSegment url ++ ".txt") = none)
    (herr : o.doc url = DocFetchOutcome.netError ∨
      o.doc url = DocFetchOutcome.noTable ∨
      o.doc url = DocFetchOutcome.noDocLink) :
    get_filing_text o cache url sections
      = ("", cache, [NetReq.fetchReq url]) := by
  rcases herr with h | h | h <;> simp [get_filing_text, hmiss, h]

/-- C3: for every oracle behaviour, cache state, ticker, filing type,
year filter and sections argument, `get_filing` is a total function into
strings — it returns either the text produced by `get_filing_text` for a
discovered filing or the empty string — and each failure mode (unknown
ticker, empty search result, empty post-filter result, failed document
fetch) yields the empty string; no exception is modelled as escaping. -/
theorem get_filing_no_exception (o : Oracle) (cache : Cache)
    (ticker filing_type : String) (year : Option String)
    (sections : Option (List String)) :
    ((get_filing o cache ticker filing_type year sections).1 = "" ∨
      ∃ f, f ∈ filingsOf o ticker filing_type year ∧
        (get_filing o cache ticker filing_type year sections).1
          = (get_filing_text o cache f.filing_url sections).1) ∧
    (get_company_cik ticker = none →
      get_filing o cache ticker filing_type year sections = ("", cache, [])) ∧
    (∀ cik, get_company_cik ticker = some cik →
      (search_filings o cik filing_type 10).1 = [] →
      (get_filing o cache ticker filing_type year sections).1 = "") ∧
    (filingsOf o ticker filing_type year = [] →
      (get_filing o cache ticker filing_type year sections).1 = "") ∧
    (∀ f fs, filingsOf o ticker filing_type year = f :: fs →
      cacheLookup cache (lastSegment f.filing_url ++ ".txt") = none →
      (o.doc f.filing_url = DocFetchOutcome.netError ∨
        o.doc f.filing_url = DocFetchOutcome.noTable ∨
        o.doc f.filing_url = DocFetchOutcome.noDocLink) →
      (get_filing o cache ticker filing_type year sections).1 = "") := by
  refine ⟨?_, ?_, ?_, ?_, ?_⟩
  · cases hf : filingsOf o ticker filing_type year with
    | nil => exact Or.inl (get_filing_filtered_nil o cache _ _ _ _ hf)
    | cons f fs =>
      rcases get_filing_head o cache ticker filing_type year sections f fs hf
        with ⟨cik, hc, heq⟩
      exact Or.inr ⟨f, List.mem_cons_self f fs, by rw [heq]⟩
  · exact get_filing_cik_none o cache ticker filing_type year sections
  · intro cik hc hs
    exact get_filing_search_nil o cache ticker filing_type year sections cik hc hs
  · exact get_filing_filtered_nil o cache ticker filing_type year sections
  · intro f fs hf hmiss herr
    rcases get_filing_head o cache ticker filing_type year sections f fs hf
      with ⟨cik, hc, heq⟩
    rw [heq]
    show (get_filing_text o cache f.filing_url sections).1 = ""
    rw [get_filing_text_fail o cache f.filing_url sections hmiss herr]

/-- Witness for C3: an unknown ticker and an empty search result, on a
concrete oracle, both give the empty string. -/
theorem get_filing_no_exception_witness :
    get_filing oracle0 [] "ZZZZ" "10-K" none none = ("", [], []) ∧
    (get_filing oracle0 [] "NVDA" "10-K" none none).1 = "" :=
  ⟨(get_filing_no_exception oracle0 [] "ZZZZ" "10-K" none none).2.1 (by decide),
   (get_filing_no_exception oracle0 [] "NVDA" "10-K" none none).2.2.1
     "0001045810" (by decide) (by decide)⟩

/-- C7: for every ticker whose upper-cased form is not in the static
ticker-to-CIK table, `get_filing` returns the empty string, leaves the
cache untouched and issues no network request. -/
theorem unknown_ticker_no_network (o : Oracle) (cache : Cache)
    (ticker filing_type : String) (year : Option String)
    (sections : Option (List String))
    (h : attrsFind ticker_to_cik (pyUpper ticker) = none) :
    get_filing o cache ticker filing_type year sections = ("", cache, []) := by
  have hc : get_company_cik ticker = none := h
  simp [get_filing, hc]

/-- Witness for C7 at the concrete unknown ticker `zzzz`. -/
theorem unknown_ticker_no_network_witness :
    get_filing oracle0 [] "zzzz" "10-Q" none none = ("", [], []) :=
  unknown_ticker_no_network oracle0 [] "zzzz" "10-Q" none none (by decide)

/-- C8: on a cache miss with a successfully fetched document and a
non-empty `sections` argument, `get_filing_text` returns the first 50000
characters of the full cleaned document text — a prefix of it —
independently of which sections were requested. -/
theorem sections_request_truncates (o : Oracle) (cache : Cache) (u : String)
    (secs : List String) (fullText : String)
    (hmiss : cacheLookup cache (lastSegment u ++ ".txt") = none)
    (hdoc : o.doc u = DocFetchOutcome.ok fullText)
    (hsecs : ¬ secs = []) :
    (get_filing_text o cache u (some secs)).1 = strTake fullText 50000 ∧
    (∀ secs2 : List String, ¬ secs2 = [] →
      (get_filing_text o cache u (some secs2)).1
        = (get_filing_text o cache u (some secs)).1) ∧
    ∃ rest, fullText = (get_filing_text o cache u (some secs)).1 ++ rest := by
  have key : ∀ s2 : List String, ¬ s2 = [] →
      (get_filing_text o cache u (some s2)).1 = strTake fullText 50000 := by
    intro s2 h2
    have he : s2.isEmpty = false := by
      cases s2 with
      | nil => exact absurd rfl h2
      | cons a as => rfl
    simp [get_filing_text, hmiss, hdoc, extract_sections, he]
  refine ⟨key secs hsecs, ?_, ?_⟩
  · intro s2 h2
    rw [key s2 h2, key secs hsecs]
  · refine ⟨⟨fullText.data.drop 50000⟩, ?_⟩
    rw [key secs hsecs]
    cases fullText with
    | mk d => exact (congrArg String.mk (List.take_append_drop 50000 d)).symm

/-- Witness for C8 on a concrete oracle, document and section lists. -/
theorem sections_request_truncates_witness :
    (get_filing_text oracleTwo [] "https://a/x" (some ["Item 1"])).1
      = strTake "T" 50000 ∧
    (get_filing_text oracleTwo [] "https://a/x" (some ["Item 7", "Item 1A"])).1
      = (get_filing_text oracleTwo [] "https://a/x" (some ["Item 1"])).1 :=
  ⟨(sections_request_truncates oracleTwo [] "https://a/x" ["Item 1"] "T"
      rfl (by decide) (by decide)).1,
   (sections_request_truncates oracleTwo [] "https://a/x" ["Item 1"] "T"
      rfl (by decide) (by decide)).2.1 ["Item 7", "Item 1A"] (by decide)⟩

/-- C10: the fetcher's cache key is only the final URL segment, so for
two distinct filing URLs sharing that segment, a `get_filing_text` call
on the second URL after a successful call on the first returns the first
URL's cached text, changes nothing and performs no network fetch. -/
theorem cache_key_collision (o : Oracle) (cache : Cache) (u1 u2 : String)
    (s1 s2 : Option (List String)) (t : String)
    (hne : ¬ u1 = u2)
    (hseg : lastSegment u1 = lastSegment u2)
    (hmiss : cacheLookup cache (lastSegment u1 ++ ".txt") = none)
    (hdoc : o.doc u1 = DocFetchOutcome.ok t) :
    (get_filing_text o (get_filing_text o cache u1 s1).2.1 u2 s2).1
        = (get_filing_text o cache u1 s1).1 ∧
    (get_filing_text o (get_filing_text o cache u1 s1).2.1 u2 s2).2.1
        = (get_filing_text o cache u1 s1).2.1 ∧
    (get_filing_text o (get_filing_text o cache u1 s1).2.1 u2 s2).2.2 = [] := by
  have h1 : get_filing_text o cache u1 s1
      = ((match s1 with
          | some secs =>
            if secs.isEmpty then t else extract_sections t secs
          | none => t),
         (lastSegment u1 ++ ".txt",
          (match s1 with
           | some secs =>
             if secs.isEmpty then t else extract_sections t secs
           | none => t)) :: cache,
         [NetReq.fetchReq u1]) := by
    simp [get_filing_text, hmiss, hdoc]
  rw [h1]
  simp [get_filing_text, cacheLookup, attrsFind, ← hseg]

/-- Witness for C10 at concrete distinct URLs sharing a final segment. -/
theorem cache_key_collision_witness :
    (get_filing_text oracleTwo
        ((get_filing_text oracleTwo [] "https://a/x" none).2.1)
        "https://b/x" none).1
      = (get_filing_text oracleTwo [] "https://a/x" none).1 ∧
    (get_filing_text oracleTwo
        ((get_filing_text oracleTwo [] "https://a/x" none).2.1)
        "https://b/x" none).2.1
      = (get_filing_text oracleTwo [] "https://a/x" none).2.1 ∧
    (get_filing_text oracleTwo
        ((get_filing_text oracleTwo [] "https://a/x" none).2.1)
        "https://b/x" none).2.2 = [] :=
  cache_key_collision oracleTwo [] "https://a/x" "https://b/x" none none "T"
    (by decide) (by decide) rfl (by decide)

/-- A missing (unset or empty) `LANGEXTRACT_API_KEY` makes `main` report
it and exit 1 right after creating the output directory; the condition in
Boolean form. -/
theorem main_run_no_key (o : Oracle) (k : Option String) (args : Args)
    (cache : Cache) (hk : k.getD "" = "") :
    main_run o k args cache
      = { exitCode := some 1
          effects := [MainEff.mkdirOutput, MainEff.reportMissingKey]
          cache := cache } := by
  simp [main_run, hk]

/-- With a key present, a fetching run's final cache is exactly
`get_filing`'s cache. -/
theorem main_run_fetch_cache (o : Oracle) (key : String) (args : Args)
    (cache : Cache) (hkey : ¬ key = "") (hskip : args.skip_fetch = false) :
    (main_run o (some key) args cache).cache
      = (get_filing o cache args.ticker args.filing_type args.year none).2.1 := by
  have hb : ((some key : Option String).getD "" == "") = false := by
    simpa using hkey
  unfold main_run
  rw [hb]
  simp only [Bool.false_eq_true, if_false, hskip]
  split <;> rfl

/-- With a key present and `--skip-fetch`, a missing cache file makes
`main` exit 1. -/
theorem main_run_skip_miss (o : Oracle) (key : String) (args : Args)
    (cache : Cache) (hkey : ¬ key = "") (hskip : args.skip_fetch = true)
    (hmiss : cacheLookup cache (skipCacheName args) = none) :
    main_run o (some key) args cache
      = { exitCode := some 1, effects := [MainEff.mkdirOutput], cache := cache } := by
  have hb : ((some key : Option String).getD "" == "") = false := by
    simpa using hkey
  unfold main_run
  rw [hb]
  simp [hskip, hmiss]

/-- A fetching run either leaves the cache directory unchanged or adds
exactly one file, named after the final URL segment of a discovered
filing. -/
theorem main_run_fetch_cache_cases (o : Oracle) (key : String) (args : Args)
    (cache : Cache) (hkey : ¬ key = "") (hskip : args.skip_fetch = false) :
    (main_run o (some key) args cache).cache = cache ∨
    ∃ f t, f ∈ filingsOf o args.ticker args.filing_type args.year ∧
      (main_run o (some key) args cache).cache
        = (lastSegment f.filing_url ++ ".txt", t) :: cache := by
  rw [main_run_fetch_cache o key args cache hkey hskip]
  cases hf : filingsOf o args.ticker args.filing_type args.year with
  | nil =>
    left
    cases hc : get_company_cik args.ticker with
    | none => simp [get_filing, hc]
    | some cik =>
      have h' : yearFiltered (search_filings o cik args.filing_type 10).1
          args.year = [] := by
        simpa [filingsOf, hc] using hf
      cases hs : (search_filings o cik args.filing_type 10).1 with
      | nil => simp [get_filing, hc, hs]
      | cons a as =>
        rw [hs] at h'
        simp [get_filing, hc, hs, h']
  | cons f fs =>
    rcases get_filing_head o cache args.ticker args.filing_type args.year
      none f fs hf with ⟨cik, hc, heq⟩
    rw [heq]
    show (get_filing_text o cache f.filing_url none).2.1 = cache ∨ _
    cases hcl : cacheLookup cache (lastSegment f.filing_url ++ ".txt") with
    | some t0 =>
      left
      simp [get_filing_text, hcl]
    | none =>
      cases hdoc : o.doc f.filing_url with
      | netError => left; simp [get_filing_text, hcl, hdoc]
      | noTable => left; simp [get_filing_text, hcl, hdoc]
      | noDocLink => left; simp [get_filing_text, hcl, hdoc]
      | ok fullText =>
        right
        refine ⟨f, fullText, List.mem_cons_self f fs, ?_⟩
        simp [get_filing_text, hcl, hdoc]

/-- C1 (amended): when `LANGEXTRACT_API_KEY` is unset, `main` reports the
missing credential and exits with status 1 before any fetching,
extraction or export work and without touching the cache directory — but
after its one earlier side effect, creating the output directory. -/
theorem missing_key_exits_after_mkdir (o : Oracle) (args : Args)
    (cache : Cache) :
    main_run o none args cache
      = { exitCode := some 1
          effects := [MainEff.mkdirOutput, MainEff.reportMissingKey]
          cache := cache } :=
  main_run_no_key o none args cache rfl

/-- C1 counterexample: on a concrete run with the credential unset, the
process does exit with status 1, but the output directory has already
been created when it does — the claim that no filesystem side effect has
occurred before the exit is false. -/
theorem missing_key_mkdir_first_cex :
    (main_run oracle0 none args0 []).exitCode = some 1 ∧
    MainEff.mkdirOutput ∈ (main_run oracle0 none args0 []).effects := by
  decide

/-- C9 (amended): the skip-fetch branch consults
`<ticker>_<filing-type>.txt` while the fetcher names cache files after
the filing URL's final path segment; hence when that file is not already
present and no discovered filing URL's final segment plus `.txt` equals
it (as with real EDGAR index URLs), a skip-fetch run exits 1 even
immediately after a fetching run for the same ticker and filing type. -/
theorem skip_fetch_misses_fetched_cache (o : Oracle) (key : String)
    (a1 a2 : Args) (cache : Cache)
    (hkey : ¬ key = "")
    (hskip1 : a1.skip_fetch = false) (hskip2 : a2.skip_fetch = true)
    (hmiss : cacheLookup cache (skipCacheName a2) = none)
    (hdiff : ∀ f ∈ filingsOf o a1.ticker a1.filing_type a1.year,
        ¬ lastSegment f.filing_url ++ ".txt" = skipCacheName a2) :
    main_run o (some key) a2 (main_run o (some key) a1 cache).cache
      = { exitCode := some 1, effects := [MainEff.mkdirOutput],
          cache := (main_run o (some key) a1 cache).cache } := by
  have hmiss' : cacheLookup (main_run o (some key) a1 cache).cache
      (skipCacheName a2) = none := by
    rcases main_run_fetch_cache_cases o key a1 cache hkey hskip1
      with h | ⟨f, t, hf, h⟩
    · rw [h]
      exact hmiss
    · rw [h]
      have hne : ((lastSegment f.filing_url ++ ".txt" : String)
          == skipCacheName a2) = false :=
        beq_eq_false_iff_ne.mpr (hdiff f hf)
      simpa [cacheLookup, attrsFind, List.find?_cons, hne] using hmiss
  exact main_run_skip_miss o key a2 _ hkey hskip2 hmiss'

/-- Witness for C9 (amended): after a fetching run against an oracle
serving a realistic EDGAR index URL, the immediately following skip-fetch
run for the same ticker and filing type exits 1. -/
theorem skip_fetch_misses_fetched_cache_witness :
    main_run oracleEdgar (some "k") argsSkip
        (main_run oracleEdgar (some "k") args0 []).cache
      = { exitCode := some 1, effects := [MainEff.mkdirOutput],
          cache := (main_run oracleEdgar (some "k") args0 []).cache } :=
  skip_fetch_misses_fetched_cache oracleEdgar "k" args0 argsSkip []
    (by decide) rfl rfl rfl (by decide)

/-- C9 counterexample: with a filing URL whose final path segment is
exactly `NVDA_10-K`, a successful fetching run does write the very cache
file the skip-fetch branch consults, and the immediately following
skip-fetch run proceeds (exit code `none`) instead of exiting non-zero —
refuting both the `never written` and the `exits non-zero` parts of the
claim. -/
theorem skip_fetch_cache_written_cex :
    (main_run oracleClash (some "k") args0 []).exitCode = none ∧
    cacheLookup (main_run oracleClash (some "k") args0 []).cache
        (skipCacheName argsSkip) = some "FILING TEXT" ∧
    (main_run oracleClash (some "k") argsSkip
        (main_run oracleClash (some "k") args0 []).cache).exitCode = none := by
  decide
